import Mathlib

/-!
Shallow embedding of the Safe Space core (src/SafeSpace_final.py): the
confidence normalizer `get_stress_confidence`, the fusion engine
`agreement_fusion`, the serial device discovery generator
`auto_detect_esp32_port`, and the telemetry read `scan_bt_data`.
Floating point values are modelled as exact rationals; Python strings as
Lean strings (lower-casing char by char, as Python does for the ASCII
labels that occur here).
-/

namespace SafeSpace

/-- Python `str.lower()` restricted to the character-by-character case map,
returned as a character list for substring reasoning. -/
def pyLower (s : String) : List Char := s.data.map Char.toLower

/-- Python `needle in hay` (contiguous substring test) on character lists. -/
def listContains (hay needle : List Char) : Bool :=
  match hay with
  | [] => needle.isEmpty
  | _ :: t => needle.isPrefixOf hay || listContains t needle

/-- Embedding of `get_stress_confidence(label, confidence)`
(src/SafeSpace_final.py lines 282-287): labels containing `"error"`
(case-insensitively) normalize to 1/2; the label `"stressed"`
(case-insensitively) keeps the confidence; every other label yields
`1 - confidence`.  `confidence` is always a Python float at the call
sites, so the `ValueError`/`TypeError` handler is dead code and the
float is modelled as an exact rational. -/
def get_stress_confidence (label : String) (confidence : ℚ) : ℚ :=
  if listContains (pyLower label) ("error".data) then 1/2
  else if pyLower label = ("stressed".data) then confidence
  else 1 - confidence

/-- The three modality labels of the spec's data model.  In the code a label
is a string; the enum value a string denotes is recorded by
`ProducedResult` below. -/
inductive ModalityLabel
  | Stressed
  | NotStressed
  | Unavailable
deriving DecidableEq

/-- The exact `(label, confidence)` pairs the four predictors
(`predict_audio`, `predict_facial`, `predict_physio_from_line`,
`predict_dass21`, src/SafeSpace_final.py lines 219-279) can return, each
tagged with the `ModalityLabel` it denotes.  Every failure path pairs its
message with confidence 1/2; the messages interpolating an exception text
`e` are kept with `e` arbitrary. -/
inductive ProducedResult : String → ℚ → ModalityLabel → Prop
  | stressed (c : ℚ) : ProducedResult "Stressed" c .Stressed
  | notStressed (c : ℚ) : ProducedResult "Not Stressed" c .NotStressed
  | facialNoModel : ProducedResult "Error: Facial model not loaded. 🚫" (1/2) .Unavailable
  | facialNoInput : ProducedResult "Error: No facial image provided. 📸" (1/2) .Unavailable
  | facialExc (e : String) :
      ProducedResult ("Error processing facial image: " ++ e ++ " 🚨") (1/2) .Unavailable
  | audioNoModel : ProducedResult "Error: Audio model not loaded. 🚫" (1/2) .Unavailable
  | audioNoInput : ProducedResult "Error: No audio file provided. 🎙️" (1/2) .Unavailable
  | audioExc (e : String) :
      ProducedResult ("Error processing audio: " ++ e ++ " 🚨") (1/2) .Unavailable
  | dassNoModel : ProducedResult "Error: DASS-21 model/scaler not loaded. 🚫" (1/2) .Unavailable
  | dassNoInput :
      ProducedResult "Error: All 21 DASS-21 questions must be answered. 📝" (1/2) .Unavailable
  | dassExc (e : String) :
      ProducedResult ("Error with DASS-21 input: " ++ e ++ " 🚨") (1/2) .Unavailable
  | physioNoModel : ProducedResult "Error: Physio model/scaler not loaded. 🚫" (1/2) .Unavailable
  | physioNoData : ProducedResult "Physio: No data available from ESP32. ⏳" (1/2) .Unavailable
  | physioFormat (e : String) :
      ProducedResult ("Physio: Data format error (" ++ e ++ "). ⚠️") (1/2) .Unavailable
  | physioPred : ProducedResult "Physio: Prediction error. 🚨" (1/2) .Unavailable

/-- What the spec's normalizer contract prescribes for each enum label. -/
def spec_normalized (m : ModalityLabel) (confidence : ℚ) : ℚ :=
  match m with
  | .Unavailable => 1/2
  | .Stressed => confidence
  | .NotStressed => 1 - confidence

/-! ### AgreementFusionEngine -/

/-- Embedding of the `agree_scores` list comprehension inside
`agreement_fusion` (src/SafeSpace_final.py line 294): for each index `i`
of `v`, the average over all `j ≠ i` of `1 - |v[i] - v[j]|`. -/
def agree_scores (v : List ℚ) : List ℚ :=
  (List.range v.length).map (fun i =>
    (((List.range v.length).filter (fun j => j ≠ i)).map
      (fun j => 1 - |v.getD i 0 - v.getD j 0|)).sum / ((v.length : ℚ) - 1))

/-- Embedding of `agreement_fusion(confidences)` (src/SafeSpace_final.py
lines 289-297), with floats as exact rationals (`1e-9` as 1/10^9 and
`np.mean` as sum over length). -/
def agreement_fusion (confidences : List ℚ) : ℚ :=
  let valid_confidences := confidences.filter (fun c => c ≠ (1/2 : ℚ))
  if valid_confidences = [] then 1/2
  else if valid_confidences.length = 1 then valid_confidences.headD 0
  else
    let agree := agree_scores valid_confidences
    let sum_agree := agree.sum
    if sum_agree < 1/1000000000 then
      valid_confidences.sum / (valid_confidences.length : ℚ)
    else
      ((agree.zip valid_confidences).map (fun p => p.1 * p.2)).sum / sum_agree

/-! ### DeviceDiscoveryProtocol -/

/-- Behaviour of one candidate serial port during a probe: opening raises;
opening succeeds but `write`/`readline` raises; or the probe completes and
the decoded, stripped response line is `resp`. -/
inductive PortBehavior
  | openFail
  | opErr
  | replies (resp : String)

/-- One yielded event of the generator: the Python pair
`(message, port-or-None)`. -/
abbrev DetectEvent := String × Option String

/-- The `for port in ports` loop of `auto_detect_esp32_port`
(src/SafeSpace_final.py lines 99-115), including the final
`❌ Auto-detection failed` yield when the loop exhausts.  Returns the
yielded events together with the list of ports that were opened and are
still open when the generator finishes (`ser.close()` runs only on the
non-raising path, before the `PONG` comparison). -/
def detect_loop (env : String → PortBehavior) :
    List String → List DetectEvent × List String
  | [] => ([("❌ Auto-detection failed. Please select the port manually.", none)], [])
  | port :: rest =>
    let testing : DetectEvent := ("Testing port: " ++ port ++ "...", none)
    match env port with
    | .openFail =>
      let r := detect_loop env rest
      (testing :: ("Error on " ++ port ++ ". Skipping.", none) :: r.1, r.2)
    | .opErr =>
      let r := detect_loop env rest
      (testing :: ("Error on " ++ port ++ ". Skipping.", none) :: r.1, port :: r.2)
    | .replies resp =>
      if resp = "PONG" then
        ([testing, ("✅ ESP32 found on " ++ port ++ "!", some port)], [])
      else
        let r := detect_loop env rest
        (testing :: r.1, r.2)

/-- Embedding of the generator `auto_detect_esp32_port`
(src/SafeSpace_final.py lines 90-115) run to exhaustion over `ports`,
with the behaviour of each port given by `env`.  Components: the yielded
events, the ports still open at the end, and the generator's Python
return value (the `StopIteration` payload — `some` only on the
`if not ports: return "No serial ports found.", None` branch, which
yields nothing). -/
def auto_detect_esp32_port (env : String → PortBehavior) (ports : List String) :
    List DetectEvent × List String × Option DetectEvent :=
  if ports = [] then ([], [], some ("No serial ports found.", none))
  else
    let r := detect_loop env ports
    (r.1, r.2, none)

/-! ### DeviceSession read (`scan_bt_data`) -/

/-- The mutable module state touched by `scan_bt_data`: the
`sensor_log` dict (insertion-ordered association list, as a Python dict)
and `latest_line` (src/SafeSpace_final.py lines 80-81). -/
structure ScanState (D : Type) where
  sensor_log : List (String × D)
  latest_line : String
deriving DecidableEq

/-- Python dict assignment `d[k] = v` on an insertion-ordered dict: if the
key is present its value is replaced in place, otherwise the pair is
appended. -/
def dictInsert {D : Type} (l : List (String × D)) (k : String) (v : D) : List (String × D) :=
  if l.any (fun p => p.1 = k) then
    l.map (fun p => if p.1 = k then (k, v) else p)
  else l ++ [(k, v)]

/-- Outcome of `bt_serial.readline().decode(...).strip()`: either the
read raises, or it yields the decoded stripped line. -/
inductive ReadOutcome
  | raises (e : String)
  | line (s : String)

/-- Embedding of `scan_bt_data()` (src/SafeSpace_final.py lines 180-197).
`json.loads` is a Python standard-library collaborator, modelled as the
parameter `parse` (`some` = parsed value, `none` = `JSONDecodeError`);
`connected` is `bt_serial is not None and bt_serial.is_open`; `now` is
the formatted `datetime.now()` timestamp.  Returns the status message and
the new state. -/
def scan_bt_data {D : Type} (parse : String → Option D) (connected : Bool)
    (read : ReadOutcome) (now : String) (st : ScanState D) : String × ScanState D :=
  if !connected then
    ("Bluetooth not connected. Select a port first. 🚫", st)
  else
    match read with
    | .raises e => ("Error reading from Bluetooth: " ++ e ++ " ❌", st)
    | .line l =>
      if l = "" then
        ("No new data received from ESP32. (Check connection/transmission) ⏳", st)
      else
        match parse l with
        | some d =>
          ("Time: " ++ now ++ "\nData: " ++ l ++ " ✅",
            ⟨dictInsert st.sensor_log now d, l⟩)
        | none =>
          ("Time: " ++ now ++ "\nInvalid Data Format: " ++ l ++ " ⚠️", st)

/-! ### Helper lemmas about `listContains` -/

/-- A list that starts with the needle contains it. -/
lemma isPrefixOf_append (needle pre rest : List Char)
    (h : needle.isPrefixOf pre = true) : needle.isPrefixOf (pre ++ rest) = true := by
  induction needle generalizing pre with
  | nil => simp [List.isPrefixOf]
  | cons a as ih =>
    cases pre with
    | nil => simp [List.isPrefixOf] at h
    | cons b bs =>
      simp only [List.cons_append, List.isPrefixOf, Bool.and_eq_true] at h ⊢
      exact ⟨h.1, ih bs h.2⟩

lemma listContains_nil_needle (hay : List Char) : listContains hay [] = true := by
  cases hay <;> simp [listContains, List.isPrefixOf]

/-- Containment in a prefix gives containment in the whole list. -/
lemma listContains_append_left (pre rest needle : List Char)
    (h : listContains pre needle = true) : listContains (pre ++ rest) needle = true := by
  induction pre with
  | nil =>
    simp only [listContains, List.isEmpty_iff] at h
    subst h
    exact listContains_nil_needle rest
  | cons a t ih =>
    simp only [listContains, Bool.or_eq_true] at h ⊢
    rcases h with h | h
    · exact Or.inl (isPrefixOf_append needle (a :: t) rest h)
    · exact Or.inr (ih h)

lemma pyLower_append (s t : String) : pyLower (s ++ t) = pyLower s ++ pyLower t := by
  simp [pyLower, String.data_append]


/-! ## Claim theorems: ConfidenceNormalizer -/

/-- C10: for every label whose lowercase form does not contain `"error"` and
is not `"stressed"`, and every confidence `c`, `get_stress_confidence`
returns `1 - c` — unavailability is recognized solely by the substring
`"error"`, so any other status string falls into the NotStressed branch. -/
theorem C10_non_error_label_is_notstressed (label : String) (c : ℚ)
    (herr : listContains (pyLower label) ("error".data) = false)
    (hst : pyLower label ≠ ("stressed".data)) :
    get_stress_confidence label c = 1 - c := by
  rw [get_stress_confidence, herr]
  simp [hst]

/-- Witness for C10 at the physiological no-data message, which contains
no `"error"`: the normalizer treats it as NotStressed. -/
theorem C10_witness :
    (listContains (pyLower "Physio: No data available from ESP32. ⏳") ("error".data) = false ∧
      pyLower "Physio: No data available from ESP32. ⏳" ≠ ("stressed".data)) ∧
    get_stress_confidence "Physio: No data available from ESP32. ⏳" (3/10) = 1 - 3/10 :=
  ⟨⟨rfl, by decide⟩,
    C10_non_error_label_is_notstressed "Physio: No data available from ESP32. ⏳" (3/10)
      rfl (by decide)⟩

/-- C5 counterexample: with no precondition restricting the confidence to
[0,1], the normalizer can return a value outside [0,1] — label
`"Stressed"` with confidence 2 returns 2. -/
theorem C5_counterexample :
    ¬ (0 ≤ get_stress_confidence "Stressed" 2 ∧ get_stress_confidence "Stressed" 2 ≤ 1) := by
  have h : get_stress_confidence "Stressed" 2 = 2 := by
    rw [get_stress_confidence]
    norm_num [show listContains (pyLower "Stressed") ("error".data) = false from rfl,
      show listContains ("stressed".data) ("error".data) = false from rfl,
      show pyLower "Stressed" = ("stressed".data) from rfl]
  rw [h]
  norm_num

/-- C5 amended: for every label and confidence in [0,1] the normalizer's
output is in [0,1], and a label containing `"error"` (the code's
Unavailable sentinel) yields exactly 1/2 for every confidence. -/
theorem C5_unit_interval (label : String) (c : ℚ) (h0 : 0 ≤ c) (h1 : c ≤ 1) :
    (0 ≤ get_stress_confidence label c ∧ get_stress_confidence label c ≤ 1) ∧
    (listContains (pyLower label) ("error".data) = true →
      get_stress_confidence label c = 1/2) := by
  constructor
  · rw [get_stress_confidence]
    split_ifs <;> constructor <;> linarith
  · intro he
    rw [get_stress_confidence, he]
    simp

/-- Witness for C5 amended, at a label containing `"error"` and at
confidence 1/3. -/
theorem C5_witness :
    ((0 : ℚ) ≤ 1/3 ∧ (1/3 : ℚ) ≤ 1) ∧
    ((0 ≤ get_stress_confidence "Error: Audio model not loaded. 🚫" (1/3) ∧
        get_stress_confidence "Error: Audio model not loaded. 🚫" (1/3) ≤ 1) ∧
      (listContains (pyLower "Error: Audio model not loaded. 🚫") ("error".data) = true →
        get_stress_confidence "Error: Audio model not loaded. 🚫" (1/3) = 1/2)) :=
  ⟨⟨by norm_num, by norm_num⟩,
    C5_unit_interval "Error: Audio model not loaded. 🚫" (1/3) (by norm_num) (by norm_num)⟩

/-- C4: for every modality result the predictors can produce,
`get_stress_confidence` implements the spec contract for the enum label it
denotes: Unavailable yields 1/2, Stressed keeps the confidence,
NotStressed yields `1 - confidence`. -/
theorem C4_normalizer_matches_contract (label : String) (c : ℚ) (m : ModalityLabel)
    (h : ProducedResult label c m) :
    get_stress_confidence label c = spec_normalized m c := by
  have herrpre : ∀ (s : String) (e t : String),
      listContains (pyLower s) ("error".data) = true →
      listContains (pyLower (s ++ e ++ t)) ("error".data) = true := by
    intro s e t hs
    rw [pyLower_append, pyLower_append]
    exact listContains_append_left _ _ _ (listContains_append_left _ _ _ hs)
  cases h with
  | stressed c =>
    rw [get_stress_confidence, spec_normalized]
    norm_num [show listContains (pyLower "Stressed") ("error".data) = false from rfl,
      show listContains ("stressed".data) ("error".data) = false from rfl,
      show pyLower "Stressed" = ("stressed".data) from rfl]
  | notStressed c =>
    rw [get_stress_confidence, spec_normalized]
    norm_num [show listContains (pyLower "Not Stressed") ("error".data) = false from rfl,
      show pyLower "Not Stressed" ≠ ("stressed".data) from by decide]
  | facialNoModel =>
    rw [get_stress_confidence, spec_normalized]
    norm_num [show listContains (pyLower "Error: Facial model not loaded. 🚫") ("error".data)
        = true from rfl]
  | facialNoInput =>
    rw [get_stress_confidence, spec_normalized]
    norm_num [show listContains (pyLower "Error: No facial image provided. 📸") ("error".data)
        = true from rfl]
  | facialExc e =>
    rw [get_stress_confidence, spec_normalized,
      herrpre "Error processing facial image: " e " 🚨" rfl]
    simp
  | audioNoModel =>
    rw [get_stress_confidence, spec_normalized]
    norm_num [show listContains (pyLower "Error: Audio model not loaded. 🚫") ("error".data)
        = true from rfl]
  | audioNoInput =>
    rw [get_stress_confidence, spec_normalized]
    norm_num [show listContains (pyLower "Error: No audio file provided. 🎙️") ("error".data)
        = true from rfl]
  | audioExc e =>
    rw [get_stress_confidence, spec_normalized,
      herrpre "Error processing audio: " e " 🚨" rfl]
    simp
  | dassNoModel =>
    rw [get_stress_confidence, spec_normalized]
    norm_num [show listContains (pyLower "Error: DASS-21 model/scaler not loaded. 🚫")
        ("error".data) = true from rfl]
  | dassNoInput =>
    rw [get_stress_confidence, spec_normalized]
    norm_num [show listContains (pyLower "Error: All 21 DASS-21 questions must be answered. 📝")
        ("error".data) = true from rfl]
  | dassExc e =>
    rw [get_stress_confidence, spec_normalized,
      herrpre "Error with DASS-21 input: " e " 🚨" rfl]
    simp
  | physioNoModel =>
    rw [get_stress_confidence, spec_normalized]
    norm_num [show listContains (pyLower "Error: Physio model/scaler not loaded. 🚫")
        ("error".data) = true from rfl]
  | physioNoData =>
    rw [get_stress_confidence, spec_normalized]
    norm_num [show listContains (pyLower "Physio: No data available from ESP32. ⏳")
        ("error".data) = false from rfl,
      show pyLower "Physio: No data available from ESP32. ⏳" ≠ ("stressed".data) from by decide]
  | physioFormat e =>
    rw [get_stress_confidence, spec_normalized,
      herrpre "Physio: Data format error (" e "). ⚠️" rfl]
    simp
  | physioPred =>
    rw [get_stress_confidence, spec_normalized]
    norm_num [show listContains (pyLower "Physio: Prediction error. 🚨") ("error".data)
        = true from rfl]

/-- Witness for C4 at the producible result (`"Stressed"`, 3/4). -/
theorem C4_witness :
    ProducedResult "Stressed" (3/4) ModalityLabel.Stressed ∧
    get_stress_confidence "Stressed" (3/4) = spec_normalized ModalityLabel.Stressed (3/4) :=
  ⟨ProducedResult.stressed (3/4),
    C4_normalizer_matches_contract "Stressed" (3/4) ModalityLabel.Stressed
      (ProducedResult.stressed (3/4))⟩

/-! ## Claim theorems: DeviceDiscoveryProtocol -/

/-- C1 counterexample: over ports `["A","B","C"]` where `"A"` opens
successfully but replies `"NOPE"` and `"B"` replies `"PONG"`, the event
sequence contains no failure/skip event for `"A"` at all — a probed port
that answers something other than `"PONG"` after opening successfully is
skipped silently, contradicting the claim that it causes a failure/skip
event before the next port is tried. -/
theorem C1_counterexample :
    (auto_detect_esp32_port
        (fun p => if p = "A" then PortBehavior.replies "NOPE"
          else if p = "B" then PortBehavior.replies "PONG"
          else PortBehavior.openFail)
        ["A", "B", "C"]).1 =
      [("Testing port: A...", none), ("Testing port: B...", none),
        ("✅ ESP32 found on B!", some "B")] ∧
    ("Error on A. Skipping.", (none : Option String)) ∉
      (auto_detect_esp32_port
        (fun p => if p = "A" then PortBehavior.replies "NOPE"
          else if p = "B" then PortBehavior.replies "PONG"
          else PortBehavior.openFail)
        ["A", "B", "C"]).1 := by
  constructor
  · rfl
  · decide

/-- C1 amended: a probed port that raises (on open or on write/read)
causes a failure/skip event before the next port is tried, while a port
that opens successfully and replies something other than `"PONG"` is
closed and skipped with no event of its own; in the `["A","B","C"]`
scenario where `"A"` errors and only `"B"` replies `"PONG"`, the sequence
is failure/skip for `"A"`, then success for `"B"`, and it terminates
without ever probing `"C"`. -/
theorem C1_amended_discovery_events :
    ((∀ (env : String → PortBehavior) (port : String) (rest : List String),
        env port = PortBehavior.openFail →
        (detect_loop env (port :: rest)).1 =
          ("Testing port: " ++ port ++ "...", none) ::
            ("Error on " ++ port ++ ". Skipping.", none) :: (detect_loop env rest).1) ∧
      (∀ (env : String → PortBehavior) (port : String) (rest : List String) (resp : String),
        env port = PortBehavior.replies resp → resp ≠ "PONG" →
        (detect_loop env (port :: rest)).1 =
          ("Testing port: " ++ port ++ "...", none) :: (detect_loop env rest).1)) ∧
    (auto_detect_esp32_port
        (fun p => if p = "A" then PortBehavior.openFail
          else if p = "B" then PortBehavior.replies "PONG"
          else PortBehavior.openFail)
        ["A", "B", "C"]).1 =
      [("Testing port: A...", none), ("Error on A. Skipping.", none),
        ("Testing port: B...", none), ("✅ ESP32 found on B!", some "B")] := by
  refine ⟨⟨?_, ?_⟩, ?_⟩
  · intro env port rest henv
    simp [detect_loop, henv]
  · intro env port rest resp henv hresp
    simp [detect_loop, henv, hresp]
  · rfl

/-- Witness for C1 amended: the two conditional parts applied at a port
that raises on open, and at a port replying `"X"`. -/
theorem C1_witness :
    ((fun _ : String => PortBehavior.openFail) "P" = PortBehavior.openFail ∧
      (fun _ : String => PortBehavior.replies "X") "Q" = PortBehavior.replies "X" ∧
      "X" ≠ "PONG") ∧
    (detect_loop (fun _ => PortBehavior.openFail) ["P"]).1 =
      ("Testing port: " ++ "P" ++ "...", none) ::
        ("Error on " ++ "P" ++ ". Skipping.", none) ::
          (detect_loop (fun _ => PortBehavior.openFail) []).1 ∧
    (detect_loop (fun _ => PortBehavior.replies "X") ["Q"]).1 =
      ("Testing port: " ++ "Q" ++ "...", none) ::
        (detect_loop (fun _ => PortBehavior.replies "X") []).1 :=
  ⟨⟨rfl, rfl, by decide⟩,
    C1_amended_discovery_events.1.1 (fun _ => PortBehavior.openFail) "P" [] rfl,
    C1_amended_discovery_events.1.2 (fun _ => PortBehavior.replies "X") "Q" [] "X" rfl
      (by decide)⟩

/-- C2: invoked over an empty port list the generator yields no event at
all — the message `"No serial ports found."` is produced by a `return`
statement inside the generator, so it only lands in the `StopIteration`
payload, which iteration discards; the claimed single terminal no-ports
event is never emitted. -/
theorem C2_empty_ports_yields_no_events :
    auto_detect_esp32_port (fun _ => PortBehavior.openFail) [] =
      ([], [], some ("No serial ports found.", none)) := rfl

/-- C3: at the failing input — port `"A"` opens successfully, then the
`write`/`readline` raises; port `"B"` replies `"PONG"` — the run probes
`"B"` and ends with `"A"` still open: the `except` path has no
`ser.close()`, so an opened port leaks when a serial operation raises
after a successful open. -/
theorem C3_port_leak_on_serial_error :
    auto_detect_esp32_port
        (fun p => if p = "A" then PortBehavior.opErr else PortBehavior.replies "PONG")
        ["A", "B"] =
      ([("Testing port: A...", none), ("Error on A. Skipping.", none),
        ("Testing port: B...", none), ("✅ ESP32 found on B!", some "B")],
        ["A"], none) := rfl

/-! ## Claim theorems: DeviceSession read -/

/-- C8: when the session reads a line that is non-empty but does not
parse as JSON, `scan_bt_data` reports the data-format warning and returns
the state unchanged: no sensor-log entry is added, removed or modified,
and the stored latest line is untouched. -/
theorem C8_malformed_line_preserves_state {D : Type} (parse : String → Option D)
    (l now : String) (st : ScanState D)
    (hne : l ≠ "") (hparse : parse l = none) :
    scan_bt_data parse true (ReadOutcome.line l) now st =
      ("Time: " ++ now ++ "\nInvalid Data Format: " ++ l ++ " ⚠️", st) := by
  simp [scan_bt_data, hne, hparse]

/-- Witness for C8 at the line `"not json"` with a parser rejecting it. -/
theorem C8_witness :
    ("not json" ≠ "" ∧ (fun _ : String => (none : Option ℕ)) "not json" = none) ∧
    scan_bt_data (fun _ : String => (none : Option ℕ)) true (ReadOutcome.line "not json")
        "2024-01-01 00:00:00" ⟨[("t0", 5)], "old"⟩ =
      ("Time: " ++ "2024-01-01 00:00:00" ++ "\nInvalid Data Format: " ++ "not json" ++ " ⚠️",
        ⟨[("t0", 5)], "old"⟩) :=
  ⟨⟨by decide, rfl⟩,
    C8_malformed_line_preserves_state (fun _ => none) "not json" "2024-01-01 00:00:00"
      ⟨[("t0", 5)], "old"⟩ (by decide) rfl⟩

/-- C9 counterexample: two successful parsed reads that fall in the same
formatted second overwrite one another — after reading `"L1"` at
timestamp `"T"` the log holds `("T", 1)`, and a second successful read of
`"L2"` at the same timestamp replaces it, so the previously recorded
reading is no longer present, contradicting append-only. -/
theorem C9_counterexample :
    ("T", 1) ∈ (scan_bt_data
        (fun s : String => if s = "L1" then some 1 else if s = "L2" then some 2 else none)
        true (ReadOutcome.line "L1") "T" ⟨[], ""⟩).2.sensor_log ∧
    ("T", 1) ∉ (scan_bt_data
        (fun s : String => if s = "L1" then some 1 else if s = "L2" then some 2 else none)
        true (ReadOutcome.line "L2") "T"
        (scan_bt_data
          (fun s : String => if s = "L1" then some 1 else if s = "L2" then some 2 else none)
          true (ReadOutcome.line "L1") "T" ⟨[], ""⟩).2).2.sensor_log := by
  decide

/-- C9 amended: the sensor log is append-only as long as each successful
parsed read carries a timestamp that is not already a key of the log: the
new log is exactly the old log with `(now, d)` appended, so every
previously recorded reading is still present; a read whose timestamp
collides with an existing key overwrites that entry instead. -/
theorem C9_append_only_fresh_timestamp {D : Type} (parse : String → Option D)
    (l now : String) (st : ScanState D) (d : D)
    (hne : l ≠ "") (hparse : parse l = some d)
    (hfresh : ∀ p ∈ st.sensor_log, p.1 ≠ now) :
    (scan_bt_data parse true (ReadOutcome.line l) now st).2.sensor_log =
      st.sensor_log ++ [(now, d)] ∧
    ∀ q ∈ st.sensor_log,
      q ∈ (scan_bt_data parse true (ReadOutcome.line l) now st).2.sensor_log := by
  have hany : st.sensor_log.any (fun p => p.1 = now) = false := by
    rw [List.any_eq_false]
    intro p hp
    simpa using hfresh p hp
  constructor
  · simp [scan_bt_data, hne, hparse, dictInsert, hany]
  · intro q hq
    simp [scan_bt_data, hne, hparse, dictInsert, hany]
    exact Or.inl hq

/-- Witness for C9 amended: a fresh-timestamp read appends to a log that
already holds one reading. -/
theorem C9_witness :
    ("L" ≠ "" ∧ (fun _ : String => (some 7 : Option ℕ)) "L" = some 7 ∧
      ∀ p ∈ (ScanState.mk [("S", 3)] "x" : ScanState ℕ).sensor_log, p.1 ≠ "T") ∧
    (scan_bt_data (fun _ : String => (some 7 : Option ℕ)) true (ReadOutcome.line "L") "T"
        ⟨[("S", 3)], "x"⟩).2.sensor_log = [("S", 3)] ++ [("T", 7)] ∧
    ∀ q ∈ (ScanState.mk [("S", 3)] "x" : ScanState ℕ).sensor_log,
      q ∈ (scan_bt_data (fun _ : String => (some 7 : Option ℕ)) true (ReadOutcome.line "L") "T"
        ⟨[("S", 3)], "x"⟩).2.sensor_log :=
  ⟨⟨by decide, rfl, by decide⟩,
    C9_append_only_fresh_timestamp (fun _ => some 7) "L" "T" ⟨[("S", 3)], "x"⟩ 7
      (by decide) rfl (by decide)⟩

/-! ## Fusion engine lemmas -/

/-- The agreement score of an estimate `x` against the pool `v`, written as
a function of the value and the pool: the same quantity as an entry of
`agree_scores`, since the `j = i` term of the full sum is
`1 - |x - x| = 1`. -/
def gsum (x : ℚ) (v : List ℚ) : ℚ :=
  ((v.map (fun y => 1 - |x - y|)).sum - 1) / ((v.length : ℚ) - 1)

lemma map_range_getD (v : List ℚ) (h : ℚ → ℚ) :
    (List.range v.length).map (fun i => h (v.getD i 0)) = v.map h := by
  induction v with
  | nil => rfl
  | cons a t ih =>
    rw [List.length_cons, List.range_succ_eq_map, List.map_cons, List.map_map, List.map_cons]
    congr 1

lemma sum_map_filter_split (l : List ℕ) (p q : ℕ → Bool) (hq : ∀ j, q j = !(p j))
    (f : ℕ → ℚ) :
    ((l.filter p).map f).sum + ((l.filter q).map f).sum = (l.map f).sum := by
  induction l with
  | nil => simp
  | cons a t ih =>
    cases hpa : p a with
    | false =>
      have hqa : q a = true := by rw [hq a, hpa]; rfl
      simp only [List.filter_cons, hpa, hqa, if_false, if_true, List.map_cons, List.sum_cons,
        Bool.false_eq_true, ite_false, ite_true]
      linarith [ih]
    | true =>
      have hqa : q a = false := by rw [hq a, hpa]; rfl
      simp only [List.filter_cons, hpa, hqa, if_false, if_true, List.map_cons, List.sum_cons,
        Bool.false_eq_true, ite_false, ite_true]
      linarith [ih]

lemma range_filter_eq_singleton (M i : ℕ) (h : i < M) :
    (List.range M).filter (fun j => j = i) = [i] := by
  induction M with
  | zero => exact absurd h (Nat.not_lt_zero i)
  | succ n ih =>
    rw [List.range_succ, List.filter_append]
    rcases Nat.lt_succ_iff_lt_or_eq.mp h with h2 | h2
    · rw [ih h2]
      have hn : (List.filter (fun j => decide (j = i)) [n]) = [] := by
        have : n ≠ i := by omega
        simp [this]
      rw [hn, List.append_nil]
    · subst h2
      have h1 : (List.range i).filter (fun j => decide (j = i)) = [] := by
        rw [List.filter_eq_nil_iff]
        intro a ha
        rw [List.mem_range] at ha
        simp
        omega
      rw [h1]
      simp

lemma agree_entry (v : List ℚ) (i : ℕ) (hi : i < v.length) :
    (((List.range v.length).filter (fun j => j ≠ i)).map
        (fun j => 1 - |v.getD i 0 - v.getD j 0|)).sum
      = (v.map (fun y => 1 - |v.getD i 0 - y|)).sum - 1 := by
  have hsplit := sum_map_filter_split (List.range v.length)
    (fun j => j ≠ i) (fun j => j = i)
    (by intro j; simp [decide_not]) (fun j => 1 - |v.getD i 0 - v.getD j 0|)
  rw [range_filter_eq_singleton v.length i hi] at hsplit
  rw [map_range_getD v (fun y => 1 - |v.getD i 0 - y|)] at hsplit
  simp only [List.map_cons, List.map_nil, List.sum_cons, List.sum_nil, sub_self, abs_zero,
    sub_zero, add_zero] at hsplit
  linarith [hsplit]

lemma agree_scores_eq_map (v : List ℚ) :
    agree_scores v = v.map (fun x => gsum x v) := by
  rw [agree_scores, ← map_range_getD v (fun x => gsum x v)]
  apply List.map_congr_left
  intro i hi
  rw [List.mem_range] at hi
  rw [agree_entry v i hi, gsum]

lemma map_zip_map_mul (f : ℚ → ℚ) (v : List ℚ) :
    ((v.map f).zip v).map (fun p => p.1 * p.2) = v.map (fun x => f x * x) := by
  induction v with
  | nil => rfl
  | cons a t ih => simp [ih]

lemma gsum_congr_perm (x : ℚ) {v w : List ℚ} (h : v.Perm w) : gsum x v = gsum x w := by
  rw [gsum, gsum, (h.map (fun y => 1 - |x - y|)).sum_eq, h.length_eq]

/-- Permutation invariance of the fusion engine, for lists of any length. -/
lemma agreement_fusion_perm {l l' : List ℚ} (hp : l.Perm l') :
    agreement_fusion l = agreement_fusion l' := by
  have hv : (l.filter (fun c => c ≠ (1/2 : ℚ))).Perm
      (l'.filter (fun c => c ≠ (1/2 : ℚ))) := hp.filter _
  simp only [agreement_fusion]
  set v := l.filter (fun c => c ≠ (1/2 : ℚ)) with hvdef
  set w := l'.filter (fun c => c ≠ (1/2 : ℚ)) with hwdef
  have hlen : v.length = w.length := hv.length_eq
  by_cases h0 : v = []
  · have h0w : w = [] := by
      rw [h0] at hv
      exact (List.perm_nil.mp hv.symm)
  -- fall through below
    rw [h0, h0w]
  · have h0w : w ≠ [] := by
      intro hw
      rw [hw] at hv
      exact h0 (List.perm_nil.mp hv)
    rw [if_neg h0, if_neg h0w]
    by_cases h1 : v.length = 1
    · obtain ⟨a, ha⟩ := List.length_eq_one.mp h1
      have hw1 : w = [a] := by
        rw [ha] at hv
        exact (List.singleton_perm.mp hv).symm
      rw [if_pos h1, if_pos (by rw [← hlen]; exact h1), ha, hw1]
    · have h1w : ¬ w.length = 1 := by rw [← hlen]; exact h1
      rw [if_neg h1, if_neg h1w]
      have hgs : ∀ x : ℚ, gsum x v = gsum x w := fun x => gsum_congr_perm x hv
      have hsum : (agree_scores v).sum = (agree_scores w).sum := by
        rw [agree_scores_eq_map, agree_scores_eq_map]
        rw [List.map_congr_left (fun x _ => hgs x)]
        exact (hv.map (fun x => gsum x w)).sum_eq
      have hweight : (((agree_scores v).zip v).map (fun p => p.1 * p.2)).sum
          = (((agree_scores w).zip w).map (fun p => p.1 * p.2)).sum := by
        rw [agree_scores_eq_map, agree_scores_eq_map, map_zip_map_mul, map_zip_map_mul]
        rw [List.map_congr_left (fun x _ => by rw [hgs x])]
        exact (hv.map (fun x => gsum x w * x)).sum_eq
      rw [hsum, hweight, hv.sum_eq, hlen]

/-- C6: the fused score is invariant under permutation of the four
normalized confidence inputs. -/
theorem C6_fusion_permutation_invariant (l l' : List ℚ) (h4 : l.length = 4)
    (hunit : ∀ c ∈ l, 0 ≤ c ∧ c ≤ 1) (hp : l.Perm l') :
    agreement_fusion l = agreement_fusion l' :=
  agreement_fusion_perm hp

/-- Witness for C6 at `[0, 1, 1/2, 1/2]` and its transposition. -/
theorem C6_witness :
    (([(0 : ℚ), 1, 1/2, 1/2].length = 4) ∧
      (∀ c ∈ [(0 : ℚ), 1, 1/2, 1/2], 0 ≤ c ∧ c ≤ 1) ∧
      List.Perm [(0 : ℚ), 1, 1/2, 1/2] [1, 0, 1/2, 1/2]) ∧
    agreement_fusion [(0 : ℚ), 1, 1/2, 1/2] = agreement_fusion [1, 0, 1/2, 1/2] :=
  ⟨⟨rfl,
    by
      intro c hc
      simp only [List.mem_cons, List.not_mem_nil, or_false] at hc
      rcases hc with h | h | h | h <;> subst h <;> norm_num,
    List.Perm.swap 1 0 [1/2, 1/2]⟩,
    C6_fusion_permutation_invariant [(0 : ℚ), 1, 1/2, 1/2] [1, 0, 1/2, 1/2] rfl
      (by
        intro c hc
        simp only [List.mem_cons, List.not_mem_nil, or_false] at hc
        rcases hc with h | h | h | h <;> subst h <;> norm_num)
      (List.Perm.swap 1 0 [1/2, 1/2])⟩

lemma gsum_replicate (x : ℚ) (k : ℕ) (hk : 2 ≤ k) :
    gsum x (List.replicate k x) = 1 := by
  have hkQ : ((k : ℚ) - 1) ≠ 0 := by
    have h2 : (2 : ℚ) ≤ (k : ℚ) := by exact_mod_cast hk
    intro h
    linarith
  rw [gsum, List.map_replicate]
  simp only [sub_self, abs_zero, sub_zero, List.sum_replicate, List.length_replicate,
    nsmul_eq_mul, mul_one]
  exact div_self hkQ

lemma agree_scores_replicate (x : ℚ) (k : ℕ) (hk : 2 ≤ k) :
    agree_scores (List.replicate k x) = List.replicate k 1 := by
  rw [agree_scores_eq_map, List.map_replicate, gsum_replicate x k hk]

lemma zip_replicate_map_mul (k : ℕ) (a b : ℚ) :
    ((List.replicate k a).zip (List.replicate k b)).map (fun p => p.1 * p.2)
      = List.replicate k (a * b) := by
  induction k with
  | zero => rfl
  | succ n ih => simp [List.replicate_succ, ih]

/-- Fused score of a list whose non-neutral values form `replicate k x`. -/
lemma agreement_fusion_of_filter_replicate (l : List ℚ) (x : ℚ) (k : ℕ) (hk : 1 ≤ k)
    (hfil : l.filter (fun c => c ≠ (1/2 : ℚ)) = List.replicate k x) :
    agreement_fusion l = x := by
  simp only [agreement_fusion, hfil]
  have hne : List.replicate k x ≠ [] := by
    intro h
    have hk0 : k = 0 := by simpa using congrArg List.length h
    omega
  rw [if_neg hne, List.length_replicate]
  rcases Nat.lt_or_ge k 2 with hk1 | hk2
  · have hk1 : k = 1 := by omega
    subst hk1
    rw [if_pos rfl]
    rfl
  · have hkne1 : ¬ k = 1 := by omega
    rw [if_neg hkne1, agree_scores_replicate x k hk2]
    have hsum1 : (List.replicate k (1 : ℚ)).sum = (k : ℚ) := by
      rw [List.sum_replicate, nsmul_eq_mul, mul_one]
    have hk0 : ((k : ℚ)) ≠ 0 := by
      have : (2 : ℚ) ≤ (k : ℚ) := by exact_mod_cast hk2
      intro h
      linarith
    have hbig : ¬ ((List.replicate k (1 : ℚ)).sum < 1/1000000000) := by
      rw [hsum1]
      have : (2 : ℚ) ≤ (k : ℚ) := by exact_mod_cast hk2
      intro h
      linarith
    rw [if_neg hbig, zip_replicate_map_mul, one_mul, List.sum_replicate, hsum1,
      nsmul_eq_mul]
    exact mul_div_cancel_left₀ x hk0

/-- C7: if every non-neutral input of a four-element list equals `x` and at
least one input is non-neutral, the fused score is exactly `x`. -/
theorem C7_constant_non_neutral (l : List ℚ) (x : ℚ) (h4 : l.length = 4)
    (hall : ∀ c ∈ l, c ≠ 1/2 → c = x) (hex : ∃ c ∈ l, c ≠ 1/2) :
    agreement_fusion l = x := by
  obtain ⟨c0, hc0mem, hc0ne⟩ := hex
  have hvmem : ∀ b ∈ l.filter (fun c => c ≠ (1/2 : ℚ)), b = x := by
    intro b hb
    rw [List.mem_filter] at hb
    exact hall b hb.1 (by simpa using hb.2)
  have hc0v : c0 ∈ l.filter (fun c => c ≠ (1/2 : ℚ)) := by
    rw [List.mem_filter]
    exact ⟨hc0mem, by simpa using hc0ne⟩
  have hpos : 1 ≤ (l.filter (fun c => c ≠ (1/2 : ℚ))).length :=
    List.length_pos.mpr (fun h => by rw [h] at hc0v; exact (List.not_mem_nil c0) hc0v)
  exact agreement_fusion_of_filter_replicate l x _ hpos
    (List.eq_replicate_iff.mpr ⟨rfl, hvmem⟩)

/-- Witness for C7 at `[9/10, 1/2, 1/2, 1/2]` with `x = 9/10`: exactly one
non-neutral input, fused score equals it. -/
theorem C7_witness :
    (([(9/10 : ℚ), 1/2, 1/2, 1/2].length = 4) ∧
      (∀ c ∈ [(9/10 : ℚ), 1/2, 1/2, 1/2], c ≠ 1/2 → c = 9/10) ∧
      (∃ c ∈ [(9/10 : ℚ), 1/2, 1/2, 1/2], c ≠ 1/2)) ∧
    agreement_fusion [(9/10 : ℚ), 1/2, 1/2, 1/2] = 9/10 :=
  ⟨⟨rfl,
    by
      intro c hc
      simp only [List.mem_cons, List.not_mem_nil, or_false] at hc
      rcases hc with h | h | h | h <;> subst h <;> norm_num,
    ⟨9/10, by norm_num⟩⟩,
    C7_constant_non_neutral [(9/10 : ℚ), 1/2, 1/2, 1/2] (9/10) rfl
      (by
        intro c hc
        simp only [List.mem_cons, List.not_mem_nil, or_false] at hc
        rcases hc with h | h | h | h <;> subst h <;> norm_num)
      ⟨9/10, by norm_num⟩⟩

end SafeSpace
